import Mathlib

/-!
Verification development for a dual-configuration particle scene: a point-cloud
foliage population and three instanced ornament populations (balls, boxes,
lights) that interpolate between a spherical chaos cloud and a conical tree
formation, driven by a per-frame smoothed progress scalar.

Definitions below are shallow embeddings of the TypeScript source
(`Ornaments`, `TreeFoliage`, `types.ts`); JavaScript numbers are modelled as
real numbers and the `Math.random()` source as an explicit stream of values
in `[0,1)`.
-/

/-- The discrete mode toggle (`TreeState` in `types.ts`). -/
inductive TreeState
  | chaos
  | formed
deriving DecidableEq

/-- The three instanced ornament classes. -/
inductive OrnamentType
  | ball
  | box
  | light
deriving DecidableEq

/-- A 3D vector over the reals (models `THREE.Vector3` and `THREE.Euler`
component triples). -/
structure Vec3 where
  x : ℝ
  y : ℝ
  z : ℝ

/-- The colors an ornament can receive: the four palette entries
`#D4AF37`, `#800000`, `#C0C0C0`, `#B8860B` plus the warm light color
`#ffccaa`. -/
inductive OrnColor
  | gold
  | maroon
  | silver
  | darkGold
  | warmLight
deriving DecidableEq

/-- `OrnamentData` from `types.ts`. -/
structure OrnamentData where
  chaosPos : Vec3
  targetPos : Vec3
  targetRot : Vec3
  color : OrnColor
  scale : ℝ
  speed : ℝ

/-- One foliage particle record: the per-vertex attributes uploaded once. -/
structure FoliageData where
  chaosPos : Vec3
  targetPos : Vec3
  aRandom : ℝ

def BALL_COUNT : ℕ := 200

def BOX_COUNT : ℕ := 50

def LIGHT_COUNT : ℕ := 300

def COUNT : ℕ := 15000

def TREE_HEIGHT : ℝ := 16

def TREE_RADIUS : ℝ := 6

/-- A stream of pseudo-random draws, one per `Math.random()` call. -/
def RandStream : Type := ℕ → ℝ

/-- The contract of `Math.random()`: every draw lies in `[0,1)`. -/
def validStream (r : RandStream) : Prop := ∀ n, 0 ≤ r n ∧ r n < 1

/-- Drop the first `k` draws of a stream. -/
def shiftStream (r : RandStream) (k : ℕ) : RandStream := fun n => r (n + k)

/-- The all-zero stream, a concrete valid random source. -/
def zeroStream : RandStream := fun _ => 0

/-- Palette lookup `palette[Math.floor(random * 4)]` for a draw in `[0,1)`. -/
noncomputable def paletteColor (r : ℝ) : OrnColor :=
  if ⌊r * 4⌋ = 0 then .gold
  else if ⌊r * 4⌋ = 1 then .maroon
  else if ⌊r * 4⌋ = 2 then .silver
  else .darkGold

/-- One iteration of the `generateOrnamentData` loop, reading draws
`rnd 0, rnd 1, …` in the order the source calls `Math.random()`:
chaos direction `u`, `v`, chaos radius, height fraction, spiral jitter,
three rotation angles, then (for non-lights) the palette index. -/
noncomputable def mkOrnament (t : OrnamentType) (rnd : RandStream) : OrnamentData :=
  let u := rnd 0
  let v := rnd 1
  let theta := 2 * Real.pi * u
  let phi := Real.arccos (2 * v - 1)
  let rChaos := 20 + rnd 2 * 15
  let chaosPos : Vec3 :=
    ⟨rChaos * Real.sin phi * Real.cos theta,
     rChaos * Real.sin phi * Real.sin theta + 10,
     rChaos * Real.cos phi⟩
  let hNorm := rnd 3
  let y := hNorm * TREE_HEIGHT
  let rCone := (1 - hNorm) * TREE_RADIUS
  let spiralAngle := hNorm * Real.pi * 10 + rnd 4 * Real.pi * 2
  let rFinal := rCone * (if t = OrnamentType.light then 1.05 else 0.9)
  let targetPos : Vec3 :=
    ⟨Real.cos spiralAngle * rFinal, y, Real.sin spiralAngle * rFinal⟩
  let targetRot : Vec3 := ⟨rnd 5 * Real.pi, rnd 6 * Real.pi, rnd 7 * Real.pi⟩
  let color := if t = OrnamentType.light then OrnColor.warmLight else paletteColor (rnd 8)
  let speed : ℝ :=
    if t = OrnamentType.light then 2.0 else if t = OrnamentType.ball then 1.5 else 0.8
  let scale : ℝ :=
    if t = OrnamentType.light then 0.1 else if t = OrnamentType.ball then 0.25 else 0.35
  ⟨chaosPos, targetPos, targetRot, color, scale, speed⟩

/-- Number of `Math.random()` calls one loop iteration consumes:
lights skip the palette draw. -/
def ornRandCount (t : OrnamentType) : ℕ :=
  if t = OrnamentType.light then 8 else 9

/-- `generateOrnamentData(count, type)`: the loop body pushed `count` times,
threading the random stream through the iterations. -/
noncomputable def generateOrnamentData : ℕ → OrnamentType → RandStream → List OrnamentData
  | 0, _, _ => []
  | n + 1, t, rnd =>
      mkOrnament t rnd :: generateOrnamentData n t (shiftStream rnd (ornRandCount t))

/-- One iteration of the foliage attribute loop in `TreeFoliage`, reading
draws in source order: chaos direction `u`, `v`, chaos radius (cube root),
height fraction, angle, radial fill (square root), sparkle attribute. -/
noncomputable def mkFoliage (rnd : RandStream) : FoliageData :=
  let u := rnd 0
  let v := rnd 1
  let theta := 2 * Real.pi * u
  let phi := Real.arccos (2 * v - 1)
  let r := 25 * (rnd 2) ^ ((1 : ℝ) / 3)
  let chaosPos : Vec3 :=
    ⟨r * Real.sin phi * Real.cos theta,
     r * Real.sin phi * Real.sin theta + 10,
     r * Real.cos phi⟩
  let hNorm := rnd 3
  let y := hNorm * TREE_HEIGHT
  let rCone := (1 - hNorm) * TREE_RADIUS
  let angle := rnd 4 * Real.pi * 2
  let rFinal := Real.sqrt (rnd 5) * rCone
  let targetPos : Vec3 := ⟨Real.cos angle * rFinal, y, Real.sin angle * rFinal⟩
  ⟨chaosPos, targetPos, rnd 6⟩

/-- Draws consumed per foliage particle. -/
def foliageRandCount : ℕ := 7

/-- The foliage attribute generation loop, for an arbitrary count
(the source runs it with `COUNT`). -/
noncomputable def generateFoliage : ℕ → RandStream → List FoliageData
  | 0, _ => []
  | n + 1, rnd => mkFoliage rnd :: generateFoliage n (shiftStream rnd foliageRandCount)

/-- `THREE.MathUtils.lerp(x, y, t) = (1 - t) * x + t * y`. -/
def mathLerp (x y t : ℝ) : ℝ := (1 - t) * x + t * y

/-- One per-frame progress update,
`current = lerp(current, target, delta * k)`; `k` is `0.8` for the
ornaments component and `1.5` for the foliage component. -/
def advanceProgress (k p target dt : ℝ) : ℝ := mathLerp p target (dt * k)

def ORNAMENT_RATE : ℝ := 0.8

def FOLIAGE_RATE : ℝ := 1.5

/-- Progress after `n` frames of fixed duration `dt`, starting at `p0`. -/
def progressSeq (k target dt p0 : ℝ) : ℕ → ℝ
  | 0 => p0
  | n + 1 => advanceProgress k (progressSeq k target dt p0 n) target dt

/-- `THREE.MathUtils.clamp(value, lo, hi) = max(lo, min(hi, value))`. -/
def mathClamp (v lo hi : ℝ) : ℝ := max lo (min hi v)

/-- The boxes progress remap `clamp((p - 0.1) * 1.1, 0, 1)`. -/
def boxRemap (p : ℝ) : ℝ := mathClamp ((p - 0.1) * 1.1) 0 1

/-- The lights progress remap `clamp(p * 1.2, 0, 1)`. -/
def lightRemap (p : ℝ) : ℝ := mathClamp (p * 1.2) 0 1

/-- `Vector3.lerpVectors(a, b, t)` componentwise. -/
def lerpVectors (a b : Vec3) (t : ℝ) : Vec3 :=
  ⟨a.x + (b.x - a.x) * t, a.y + (b.y - a.y) * t, a.z + (b.z - a.z) * t⟩

def Vec3.add (a b : Vec3) : Vec3 := ⟨a.x + b.x, a.y + b.y, a.z + b.z⟩

def Vec3.smul (c : ℝ) (v : Vec3) : Vec3 := ⟨c * v.x, c * v.y, c * v.z⟩

/-- GLSL `mix(a, b, t)` on scalars. -/
def glslMix (a b t : ℝ) : ℝ := a * (1 - t) + b * t

/-- GLSL `mix` on vectors, componentwise. -/
def mixVec (a b : Vec3) (t : ℝ) : Vec3 :=
  ⟨glslMix a.x b.x t, glslMix a.y b.y t, glslMix a.z b.z t⟩

/-- The vertex-shader easing `easeOutCubic(x) = 1 - pow(1 - x, 3)`. -/
def easeOutCubic (x : ℝ) : ℝ := 1 - (1 - x) ^ 3

/-- The vertex-shader noise vector: three sinusoids seeded by time and the
per-particle random attribute, each of amplitude `0.1`. -/
noncomputable def foliageNoise (uTime aRandom : ℝ) : Vec3 :=
  ⟨Real.sin (uTime * 2 + aRandom * 100) * 0.1,
   Real.cos (uTime * 1.5 + aRandom * 50) * 0.1,
   Real.sin (uTime * 1 + aRandom * 25) * 0.1⟩

/-- The pre-projection vertex position computed by the foliage vertex
shader: eased interpolation between the chaos and target attributes, plus
the noise vector scaled by `0.5` once progress passes `0.9` and by `2.0`
before that. -/
noncomputable def foliageVertexPos (aChaosPos aTargetPos : Vec3)
    (aRandom uTime uProgress : ℝ) : Vec3 :=
  let noise := foliageNoise uTime aRandom
  let pos := mixVec aChaosPos aTargetPos (easeOutCubic uProgress)
  if uProgress > 0.9 then pos.add (Vec3.smul 0.5 noise) else pos.add (Vec3.smul 2.0 noise)

/-- An instance transform as written into the instanced-mesh matrix: a
position, Euler rotation angles, and a uniform scale (the matrix written by
`dummy.updateMatrix()` is a function of exactly these). -/
structure Transform where
  position : Vec3
  rotation : Vec3
  scale : ℝ

/-- The per-ball body of the instanced update loop: lerped position, floaty
noise below progress `0.99`, spin that decays with `(1 - p)`, and the
vanish-on-exit scale rule (the first `setScalar` in the source is
immediately overwritten by both branches of the conditional that follows). -/
noncomputable def ballInstance (d : OrnamentData) (i : ℕ) (p time : ℝ)
    (isForming : Bool) : Transform :=
  let base := lerpVectors d.chaosPos d.targetPos p
  let pos :=
    if p < 0.99 then
      ⟨base.x + Real.cos (time + (i : ℝ)) * 0.05 * (1 - p),
       base.y + Real.sin (time + (i : ℝ)) * 0.05 * (1 - p),
       base.z⟩
    else base
  let rot : Vec3 :=
    ⟨d.targetRot.x + (1 - p) * time, d.targetRot.y + (1 - p) * time, d.targetRot.z⟩
  let scl := if isForming = false ∧ p < 0.1 then d.scale * p else d.scale
  ⟨pos, rot, scl⟩

/-- The per-box body of the instanced update loop, on the delayed remapped
progress. -/
noncomputable def boxInstance (d : OrnamentData) (_i : ℕ) (p time : ℝ) : Transform :=
  let p2 := boxRemap p
  let pos := lerpVectors d.chaosPos d.targetPos p2
  let rot : Vec3 :=
    ⟨d.targetRot.x + (1 - p2) * Real.sin time,
     d.targetRot.y + (1 - p2) * time * 0.5,
     d.targetRot.z⟩
  ⟨pos, rot, d.scale⟩

/-- The per-light body of the instanced update loop, on the accelerated
remapped progress, with the twinkle scale modulation. -/
noncomputable def lightInstance (d : OrnamentData) (i : ℕ) (p time : ℝ) : Transform :=
  let p2 := lightRemap p
  let pos := lerpVectors d.chaosPos d.targetPos p2
  let scl := d.scale * (0.8 + 0.4 * Real.sin (time * 5 + (i : ℝ)))
  ⟨pos, ⟨0, 0, 0⟩, scl⟩

/-- The instance color written once by the layout effect. -/
def instanceColor (d : OrnamentData) : OrnColor := d.color

/-- The arguments one `useFrame` callback receives, together with the mode
read from the mounted props. -/
structure FrameInput where
  isForming : Bool
  delta : ℝ
  time : ℝ

/-- The numeric target derived from the mode each frame. -/
def targetOf (isForming : Bool) : ℝ := if isForming then 1 else 0

/-- The mutable state of the ornaments component: the three record tables
built once by `useMemo`, and the shared progress scalar. -/
structure OrnamentsState where
  balls : List OrnamentData
  boxes : List OrnamentData
  lights : List OrnamentData
  progress : ℝ

/-- One ornaments `useFrame` tick: only the progress scalar is written; the
record tables are read but never assigned. -/
def stepOrnaments (st : OrnamentsState) (f : FrameInput) : OrnamentsState :=
  { st with progress := advanceProgress ORNAMENT_RATE st.progress (targetOf f.isForming) f.delta }

/-- The matrices the ornaments frame writes into the three instanced
meshes, one transform per record. -/
noncomputable def ornamentsFrameMatrices (st : OrnamentsState) (f : FrameInput) :
    List Transform × List Transform × List Transform :=
  let p := (stepOrnaments st f).progress
  (st.balls.enum.map fun pr => ballInstance pr.2 pr.1 p f.time f.isForming,
   st.boxes.enum.map fun pr => boxInstance pr.2 pr.1 p f.time,
   st.lights.enum.map fun pr => lightInstance pr.2 pr.1 p f.time)

/-- Folding a whole sequence of frames over the ornaments state. -/
def applyOrnamentFrames (st : OrnamentsState) (fs : List FrameInput) : OrnamentsState :=
  fs.foldl stepOrnaments st

/-- The mutable state of the foliage component: the attribute table built
once by `useMemo`, and the progress scalar pushed to the uniform. -/
structure FoliageState where
  table : List FoliageData
  progress : ℝ

/-- One foliage `useFrame` tick: only the progress scalar is written. -/
def stepFoliage (st : FoliageState) (f : FrameInput) : FoliageState :=
  { st with progress := advanceProgress FOLIAGE_RATE st.progress (targetOf f.isForming) f.delta }

/-- Folding a whole sequence of frames over the foliage state. -/
def applyFoliageFrames (st : FoliageState) (fs : List FrameInput) : FoliageState :=
  fs.foldl stepFoliage st

/-- Distance of a point from the vertical axis of the tree. -/
noncomputable def lateralDist (v : Vec3) : ℝ := Real.sqrt (v.x ^ 2 + v.z ^ 2)

/-- The cone radius available at the height of a point:
`(1 - y / TreeHeight) * TreeRadius`. -/
noncomputable def coneBound (v : Vec3) : ℝ := (1 - v.y / TREE_HEIGHT) * TREE_RADIUS

/-- The center of the chaos cloud: the vertical lift applied to every chaos
sample. -/
def chaosCenter : Vec3 := ⟨0, 10, 0⟩

/-- Euclidean distance between two points. -/
noncomputable def vecDist (a b : Vec3) : ℝ :=
  Real.sqrt ((a.x - b.x) ^ 2 + (a.y - b.y) ^ 2 + (a.z - b.z) ^ 2)

/-- Distance of a chaos sample from the lifted cloud center. -/
noncomputable def chaosRadius (v : Vec3) : ℝ := vecDist v chaosCenter

/-- Closed form of the lerp recurrence: the signed distance to the target is
scaled by `1 - dt * k` every frame. -/
theorem progressSeq_sub_target (k target dt p0 : ℝ) :
    ∀ n, progressSeq k target dt p0 n - target = (p0 - target) * (1 - dt * k) ^ n := by
  intro n
  induction n with
  | zero => simp [progressSeq]
  | succ n ih =>
      have h : progressSeq k target dt p0 (n + 1) - target
          = (progressSeq k target dt p0 n - target) * (1 - dt * k) := by
        simp only [progressSeq, advanceProgress, mathLerp]
        ring
      rw [h, ih, pow_succ]
      ring

/-- C1 counterexample: with the foliage rate `k = 1.5`, starting at progress
`0` with target `1` (mode Formed), a single advance with the fixed positive
`dt = 1` returns `1.5`, strictly outside `[0,1]`: the unclamped lerp step
overshoots past the target. -/
theorem advance_overshoot_counterexample :
    progressSeq FOLIAGE_RATE 1 1 0 1 = 1.5 ∧ ¬ progressSeq FOLIAGE_RATE 1 1 0 1 ≤ 1 := by
  have h := progressSeq_sub_target FOLIAGE_RATE 1 1 0 1
  norm_num [FOLIAGE_RATE] at h ⊢
  constructor <;> linarith

/-- C1 amended: for either controller rate `k` and any fixed `dt` with
`0 < dt * k ≤ 1`, starting at `0` with target `1` or at `1` with target `0`,
the iterated advance stays inside `[0,1]`, strictly decreases the distance
to the target while the target is not reached, and comes within every
positive epsilon. (The restriction `dt * k ≤ 1` is forced: the source step
is an unclamped lerp, which overshoots for larger steps.) -/
theorem progress_monotone_convergent (k dt p0 target : ℝ)
    (hk : 0 < k) (hdt : 0 < dt) (hs : dt * k ≤ 1)
    (hstart : p0 = 0 ∧ target = 1 ∨ p0 = 1 ∧ target = 0) :
    (∀ n, 0 ≤ progressSeq k target dt p0 n ∧ progressSeq k target dt p0 n ≤ 1) ∧
    (∀ n, progressSeq k target dt p0 n ≠ target →
      |progressSeq k target dt p0 (n + 1) - target| < |progressSeq k target dt p0 n - target|) ∧
    (∀ ε : ℝ, 0 < ε → ∃ n, |progressSeq k target dt p0 n - target| < ε) := by
  have hq0 : 0 ≤ 1 - dt * k := by linarith
  have hq1 : 1 - dt * k < 1 := by nlinarith
  have habs : ∀ n, |progressSeq k target dt p0 n - target| = (1 - dt * k) ^ n := by
    intro n
    rw [progressSeq_sub_target]
    rcases hstart with ⟨h0, h1⟩ | ⟨h0, h1⟩ <;> subst h0 <;> subst h1 <;>
      rw [abs_mul] <;> simp [abs_of_nonneg (pow_nonneg hq0 n)]
  refine ⟨?_, ?_, ?_⟩
  · intro n
    have h := progressSeq_sub_target k target dt p0 n
    have hpow0 : 0 ≤ (1 - dt * k) ^ n := pow_nonneg hq0 n
    have hpow1 : (1 - dt * k) ^ n ≤ 1 := pow_le_one₀ hq0 (by linarith)
    rcases hstart with ⟨h0, h1⟩ | ⟨h0, h1⟩ <;> subst h0 <;> subst h1 <;>
      constructor <;> nlinarith [h]
  · intro n hne
    have h1 : 0 < |progressSeq k target dt p0 n - target| :=
      abs_pos.mpr (sub_ne_zero.mpr hne)
    rw [habs n] at h1
    rw [habs n, habs (n + 1), pow_succ]
    have h2 := mul_lt_mul_of_pos_left hq1 h1
    simpa using h2
  · intro ε hε
    obtain ⟨n, hn⟩ := exists_pow_lt_of_lt_one hε hq1
    exact ⟨n, by rw [habs n]; exact hn⟩

/-- Witness for the amended C1 at the ornaments rate `k = 0.8`, `dt = 1`,
start `0`, target `1`: the third iterate stays inside `[0,1]` and the first
step from a not-yet-converged state strictly shrinks the distance. -/
theorem progress_monotone_convergent_witness :
    (0 ≤ progressSeq ORNAMENT_RATE 1 1 0 3 ∧ progressSeq ORNAMENT_RATE 1 1 0 3 ≤ 1) ∧
    |progressSeq ORNAMENT_RATE 1 1 0 1 - 1| < |progressSeq ORNAMENT_RATE 1 1 0 0 - 1| := by
  have h := progress_monotone_convergent ORNAMENT_RATE 1 0 1 (by norm_num [ORNAMENT_RATE])
    (by norm_num) (by norm_num [ORNAMENT_RATE]) (Or.inl ⟨rfl, rfl⟩)
  exact ⟨h.1 3, h.2.1 0 (by norm_num [progressSeq])⟩

/-- C6: with the foliage rate `k = 1.5`, mode Formed (target `1`), start
`0`, and fixed `dt = 1`, progress after nine calls — before the 10th call —
exceeds `0.99` (it equals `1 + 1/512`). -/
theorem formed_progress_exceeds_099 :
    0.99 < progressSeq FOLIAGE_RATE 1 1 0 9 := by
  have h := progressSeq_sub_target FOLIAGE_RATE 1 1 0 9
  norm_num [FOLIAGE_RATE] at h ⊢
  linarith

/-- C7: a zero-duration advance returns the stored progress unchanged, for
every rate, stored progress, and mode; in particular, from progress `1`
with the mode just flipped to Chaos, the next `dt = 0` step of either
controller still returns `1`. -/
theorem zero_dt_preserves_progress :
    ∀ (k p : ℝ) (m : Bool), advanceProgress k p (targetOf m) 0 = p ∧
      advanceProgress FOLIAGE_RATE 1 (targetOf false) 0 = 1 ∧
      advanceProgress ORNAMENT_RATE 1 (targetOf false) 0 = 1 := by
  intro k p m
  refine ⟨?_, ?_, ?_⟩ <;> simp [advanceProgress, mathLerp, targetOf]

/-- C2 counterexample: at progress `1` the boxes remap evaluates to `0.99`,
not `1` — `clamp((1 - 0.1) * 1.1, 0, 1) = 0.99`. -/
theorem boxRemap_at_one_counterexample :
    boxRemap 1 = 0.99 ∧ boxRemap 1 ≠ 1 := by
  constructor <;> norm_num [boxRemap, mathClamp, min_def, max_def]

/-- C2 amended: the boxes remap fixes `0`, is monotone, but reaches only
`0.99` at progress `1` (not `1` as claimed); the lights remap satisfies
early arrival (`p ≤ remap p` whenever `p < 1`) and fixes `1`. -/
theorem remap_monotone_range :
    boxRemap 0 = 0 ∧ boxRemap 1 = 0.99 ∧ Monotone boxRemap ∧
    (∀ p : ℝ, p < 1 → p ≤ lightRemap p) ∧ lightRemap 1 = 1 := by
  refine ⟨?_, ?_, ?_, ?_, ?_⟩
  · norm_num [boxRemap, mathClamp, min_def, max_def]
  · norm_num [boxRemap, mathClamp, min_def, max_def]
  · intro a b hab
    unfold boxRemap mathClamp
    exact max_le_max le_rfl (min_le_min le_rfl (by nlinarith))
  · intro p hp
    unfold lightRemap mathClamp
    rcases le_or_lt p 0 with h0 | h0
    · exact le_trans h0 (le_max_left _ _)
    · exact le_max_of_le_right (le_min (le_of_lt hp) (by nlinarith))
  · norm_num [lightRemap, mathClamp, min_def, max_def]

/-- Witness for the amended C2: early arrival of the lights remap at the
concrete progress `0.5`. -/
theorem remap_monotone_range_witness : (0.5 : ℝ) ≤ lightRemap 0.5 :=
  remap_monotone_range.2.2.2.1 0.5 (by norm_num)

/-- C5: the foliage vertex shader computes the pre-noise position as the
mix of the chaos and target attributes at `eased = 1 - (1 - progress)^3`,
then adds the three-sinusoid noise vector scaled by `2.0` while
`progress ≤ 0.9` and by `0.5` once `progress > 0.9`; every noise component
has amplitude at most `0.1`, so the jitter drops sharply on arrival. -/
theorem foliage_vertex_interp (c t : Vec3) (rand time p : ℝ) :
    (p ≤ 0.9 → foliageVertexPos c t rand time p
      = (mixVec c t (1 - (1 - p) ^ 3)).add (Vec3.smul 2 (foliageNoise time rand))) ∧
    (0.9 < p → foliageVertexPos c t rand time p
      = (mixVec c t (1 - (1 - p) ^ 3)).add (Vec3.smul 0.5 (foliageNoise time rand))) ∧
    |(foliageNoise time rand).x| ≤ 0.1 ∧ |(foliageNoise time rand).y| ≤ 0.1 ∧
    |(foliageNoise time rand).z| ≤ 0.1 := by
  refine ⟨?_, ?_, ?_, ?_, ?_⟩
  · intro h
    simp only [foliageVertexPos, easeOutCubic]
    rw [if_neg (not_lt.mpr h)]
    norm_num
  · intro h
    simp only [foliageVertexPos, easeOutCubic]
    rw [if_pos h]
  · simp only [foliageNoise]
    rw [abs_mul]
    have h1 := Real.abs_sin_le_one (time * 2 + rand * 100)
    have h2 : |(0.1 : ℝ)| = 0.1 := by norm_num
    nlinarith [abs_nonneg (Real.sin (time * 2 + rand * 100))]
  · simp only [foliageNoise]
    rw [abs_mul]
    have h1 := Real.abs_cos_le_one (time * 1.5 + rand * 50)
    have h2 : |(0.1 : ℝ)| = 0.1 := by norm_num
    nlinarith [abs_nonneg (Real.cos (time * 1.5 + rand * 50))]
  · simp only [foliageNoise]
    rw [abs_mul]
    have h1 := Real.abs_sin_le_one (time * 1 + rand * 25)
    have h2 : |(0.1 : ℝ)| = 0.1 := by norm_num
    nlinarith [abs_nonneg (Real.sin (time * 1 + rand * 25))]

/-- Witness for C5: both amplitude branches of the vertex shader at
concrete attributes, below and above the `0.9` threshold. -/
theorem foliage_vertex_interp_witness :
    foliageVertexPos ⟨0, 0, 0⟩ ⟨1, 2, 3⟩ 0 0 0.5
      = (mixVec ⟨0, 0, 0⟩ ⟨1, 2, 3⟩ (1 - (1 - 0.5) ^ 3)).add (Vec3.smul 2 (foliageNoise 0 0)) ∧
    foliageVertexPos ⟨0, 0, 0⟩ ⟨1, 2, 3⟩ 0 0 1
      = (mixVec ⟨0, 0, 0⟩ ⟨1, 2, 3⟩ (1 - (1 - 1) ^ 3)).add (Vec3.smul 0.5 (foliageNoise 0 0)) :=
  ⟨(foliage_vertex_interp ⟨0, 0, 0⟩ ⟨1, 2, 3⟩ 0 0 0.5).1 (by norm_num),
   (foliage_vertex_interp ⟨0, 0, 0⟩ ⟨1, 2, 3⟩ 0 0 1).2.1 (by norm_num)⟩

/-- The ornament generator yields one record per loop iteration. -/
theorem length_generateOrnamentData :
    ∀ (n : ℕ) (t : OrnamentType) (rnd : RandStream),
      (generateOrnamentData n t rnd).length = n := by
  intro n
  induction n with
  | zero => intro t rnd; rfl
  | succ n ih => intro t rnd; simp [generateOrnamentData, ih]

/-- The foliage generator yields one record per loop iteration. -/
theorem length_generateFoliage :
    ∀ (n : ℕ) (rnd : RandStream), (generateFoliage n rnd).length = n := by
  intro n
  induction n with
  | zero => intro rnd; rfl
  | succ n ih => intro rnd; simp [generateFoliage, ih]

/-- C8: for every requested count and class, generation returns exactly
that many records, and a zero count returns the empty sequence. -/
theorem generator_returns_count :
    ∀ (n : ℕ) (t : OrnamentType) (rnd : RandStream),
      (generateOrnamentData n t rnd).length = n ∧ (generateFoliage n rnd).length = n ∧
      generateOrnamentData 0 t rnd = [] ∧ generateFoliage 0 rnd = [] := by
  intro n t rnd
  exact ⟨length_generateOrnamentData n t rnd, length_generateFoliage n rnd, rfl, rfl⟩

/-- C9: any number of per-frame updates leaves the generated record tables
of every class untouched — only the progress scalar changes — so every
chaos position, target position, rotation, color and baseline scale, and
the record counts, are identical before and after. -/
theorem frames_preserve_tables :
    ∀ (st : OrnamentsState) (fst : FoliageState) (fs : List FrameInput),
      (applyOrnamentFrames st fs).balls = st.balls ∧
      (applyOrnamentFrames st fs).boxes = st.boxes ∧
      (applyOrnamentFrames st fs).lights = st.lights ∧
      (applyFoliageFrames fst fs).table = fst.table ∧
      (applyOrnamentFrames st fs).balls.length = st.balls.length ∧
      (applyFoliageFrames fst fs).table.length = fst.table.length := by
  intro st fst fs
  induction fs generalizing st fst with
  | nil => exact ⟨rfl, rfl, rfl, rfl, rfl, rfl⟩
  | cons f fs ih =>
      have h := ih (stepOrnaments st f) (stepFoliage fst f)
      simpa [applyOrnamentFrames, applyFoliageFrames, stepOrnaments, stepFoliage] using h

/-- Mapping a record transformation that the per-instance function cannot
see commutes out of the enumerated instance loop. -/
theorem enumFrom_map_congr {β : Type} (g : OrnamentData → OrnamentData)
    (F : ℕ → OrnamentData → β) (hF : ∀ i d, F i (g d) = F i d) :
    ∀ (k : ℕ) (l : List OrnamentData),
      ((l.map g).enumFrom k).map (fun pr => F pr.1 pr.2)
        = (l.enumFrom k).map (fun pr => F pr.1 pr.2) := by
  intro k l
  induction l generalizing k with
  | nil => rfl
  | cons d l ih => simp [List.enumFrom, hF, ih]

/-- C10: the `speed` field never influences the rendered output. Changing
only `speed` — per record, or across whole tables — leaves every ball, box
and light instance transform and every instance color unchanged, at all
indices, progress values, times and modes. -/
theorem speed_not_observable :
    ∀ (σ : OrnamentData → ℝ) (st : OrnamentsState) (f : FrameInput)
      (d : OrnamentData) (s : ℝ) (i : ℕ) (p time : ℝ) (m : Bool),
      ballInstance { d with speed := s } i p time m = ballInstance d i p time m ∧
      boxInstance { d with speed := s } i p time = boxInstance d i p time ∧
      lightInstance { d with speed := s } i p time = lightInstance d i p time ∧
      instanceColor { d with speed := s } = instanceColor d ∧
      ornamentsFrameMatrices
        { st with
          balls := st.balls.map (fun d2 => { d2 with speed := σ d2 }),
          boxes := st.boxes.map (fun d2 => { d2 with speed := σ d2 }),
          lights := st.lights.map (fun d2 => { d2 with speed := σ d2 }) } f
        = ornamentsFrameMatrices st f := by
  intro σ st f d s i p time m
  refine ⟨rfl, rfl, rfl, rfl, ?_⟩
  simp only [ornamentsFrameMatrices, stepOrnaments, List.enum]
  refine congrArg₂ Prod.mk ?_ (congrArg₂ Prod.mk ?_ ?_)
  · exact enumFrom_map_congr (fun d2 => { d2 with speed := σ d2 })
      (fun i2 d2 => ballInstance d2 i2
        (advanceProgress ORNAMENT_RATE st.progress (targetOf f.isForming) f.delta)
        f.time f.isForming) (fun _ _ => rfl) 0 st.balls
  · exact enumFrom_map_congr (fun d2 => { d2 with speed := σ d2 })
      (fun i2 d2 => boxInstance d2 i2
        (advanceProgress ORNAMENT_RATE st.progress (targetOf f.isForming) f.delta)
        f.time) (fun _ _ => rfl) 0 st.boxes
  · exact enumFrom_map_congr (fun d2 => { d2 with speed := σ d2 })
      (fun i2 d2 => lightInstance d2 i2
        (advanceProgress ORNAMENT_RATE st.progress (targetOf f.isForming) f.delta)
        f.time) (fun _ _ => rfl) 0 st.lights

/-- A point at angle `a` and radius `q` from the axis has lateral distance
exactly `q`. -/
theorem lateralDist_polar (a q yv : ℝ) (hq : 0 ≤ q) :
    lateralDist ⟨Real.cos a * q, yv, Real.sin a * q⟩ = q := by
  have h : (Real.cos a * q) ^ 2 + (Real.sin a * q) ^ 2 = q ^ 2 := by
    have hs := Real.sin_sq_add_cos_sq a
    linear_combination q ^ 2 * hs
  unfold lateralDist
  rw [show (⟨Real.cos a * q, yv, Real.sin a * q⟩ : Vec3).x = Real.cos a * q from rfl,
      show (⟨Real.cos a * q, yv, Real.sin a * q⟩ : Vec3).z = Real.sin a * q from rfl,
      h, Real.sqrt_sq hq]

/-- At height `hN * TreeHeight` the cone allows radius
`(1 - hN) * TreeRadius`. -/
theorem coneBound_at (xv zv hN : ℝ) :
    coneBound ⟨xv, hN * TREE_HEIGHT, zv⟩ = (1 - hN) * TREE_RADIUS := by
  unfold coneBound TREE_HEIGHT TREE_RADIUS
  ring

/-- A spherical sample of radius `r` around the lifted chaos center lies at
distance exactly `r` from it. -/
theorem chaosRadius_sample (r phi theta : ℝ) (hr : 0 ≤ r) :
    chaosRadius ⟨r * Real.sin phi * Real.cos theta,
      r * Real.sin phi * Real.sin theta + 10, r * Real.cos phi⟩ = r := by
  have h : (r * Real.sin phi * Real.cos theta - 0) ^ 2
      + (r * Real.sin phi * Real.sin theta + 10 - 10) ^ 2
      + (r * Real.cos phi - 0) ^ 2 = r ^ 2 := by
    have h1 := Real.sin_sq_add_cos_sq phi
    have h2 := Real.sin_sq_add_cos_sq theta
    linear_combination r ^ 2 * Real.sin phi ^ 2 * h2 + r ^ 2 * h1
  unfold chaosRadius vecDist chaosCenter
  show Real.sqrt ((r * Real.sin phi * Real.cos theta - 0) ^ 2
      + (r * Real.sin phi * Real.sin theta + 10 - 10) ^ 2
      + (r * Real.cos phi - 0) ^ 2) = r
  rw [h, Real.sqrt_sq hr]

/-- Dropping draws from a valid stream leaves a valid stream. -/
theorem validStream_shift (r : RandStream) (h : validStream r) (k : ℕ) :
    validStream (shiftStream r k) := fun n => h (n + k)

/-- The all-zero stream satisfies the `Math.random()` contract. -/
theorem zeroStream_valid : validStream zeroStream := by
  intro n
  norm_num [zeroStream]

/-- Every generated ornament record is the loop body applied to some valid
suffix of the random stream. -/
theorem mem_generateOrnamentData {n : ℕ} {t : OrnamentType} {rnd : RandStream}
    {d : OrnamentData} (h : validStream rnd) (hd : d ∈ generateOrnamentData n t rnd) :
    ∃ r2, validStream r2 ∧ d = mkOrnament t r2 := by
  induction n generalizing rnd with
  | zero => simp [generateOrnamentData] at hd
  | succ n ih =>
      simp only [generateOrnamentData, List.mem_cons] at hd
      rcases hd with hd | hd
      · exact ⟨rnd, h, hd⟩
      · exact ih (validStream_shift rnd h _) hd

/-- Every generated foliage record is the loop body applied to some valid
suffix of the random stream. -/
theorem mem_generateFoliage {n : ℕ} {rnd : RandStream} {d : FoliageData}
    (h : validStream rnd) (hd : d ∈ generateFoliage n rnd) :
    ∃ r2, validStream r2 ∧ d = mkFoliage r2 := by
  induction n generalizing rnd with
  | zero => simp [generateFoliage] at hd
  | succ n ih =>
      simp only [generateFoliage, List.mem_cons] at hd
      rcases hd with hd | hd
      · exact ⟨rnd, h, hd⟩
      · exact ih (validStream_shift rnd h _) hd

/-- The target position one ornament loop iteration computes, explicitly. -/
theorem mkOrnament_targetPos (t : OrnamentType) (rnd : RandStream) :
    (mkOrnament t rnd).targetPos =
      ⟨Real.cos (rnd 3 * Real.pi * 10 + rnd 4 * Real.pi * 2)
         * ((1 - rnd 3) * TREE_RADIUS * (if t = OrnamentType.light then 1.05 else 0.9)),
       rnd 3 * TREE_HEIGHT,
       Real.sin (rnd 3 * Real.pi * 10 + rnd 4 * Real.pi * 2)
         * ((1 - rnd 3) * TREE_RADIUS * (if t = OrnamentType.light then 1.05 else 0.9))⟩ := rfl

/-- The chaos position one ornament loop iteration computes, explicitly. -/
theorem mkOrnament_chaosPos (t : OrnamentType) (rnd : RandStream) :
    (mkOrnament t rnd).chaosPos =
      ⟨(20 + rnd 2 * 15) * Real.sin (Real.arccos (2 * rnd 1 - 1))
         * Real.cos (2 * Real.pi * rnd 0),
       (20 + rnd 2 * 15) * Real.sin (Real.arccos (2 * rnd 1 - 1))
         * Real.sin (2 * Real.pi * rnd 0) + 10,
       (20 + rnd 2 * 15) * Real.cos (Real.arccos (2 * rnd 1 - 1))⟩ := rfl

/-- The target position one foliage loop iteration computes, explicitly. -/
theorem mkFoliage_targetPos (rnd : RandStream) :
    (mkFoliage rnd).targetPos =
      ⟨Real.cos (rnd 4 * Real.pi * 2)
         * (Real.sqrt (rnd 5) * ((1 - rnd 3) * TREE_RADIUS)),
       rnd 3 * TREE_HEIGHT,
       Real.sin (rnd 4 * Real.pi * 2)
         * (Real.sqrt (rnd 5) * ((1 - rnd 3) * TREE_RADIUS))⟩ := rfl

/-- The chaos position one foliage loop iteration computes, explicitly. -/
theorem mkFoliage_chaosPos (rnd : RandStream) :
    (mkFoliage rnd).chaosPos =
      ⟨(25 * rnd 2 ^ ((1 : ℝ) / 3)) * Real.sin (Real.arccos (2 * rnd 1 - 1))
         * Real.cos (2 * Real.pi * rnd 0),
       (25 * rnd 2 ^ ((1 : ℝ) / 3)) * Real.sin (Real.arccos (2 * rnd 1 - 1))
         * Real.sin (2 * Real.pi * rnd 0) + 10,
       (25 * rnd 2 ^ ((1 : ℝ) / 3)) * Real.cos (Real.arccos (2 * rnd 1 - 1))⟩ := rfl

/-- Cone bounds for one generated ornament record: the height always lies in
`[0, TreeHeight]`; the lateral distance stays within `1.05` times the cone
radius, and within the cone radius itself for balls and boxes. -/
theorem mkOrnament_target_bounds (t : OrnamentType) (rnd : RandStream)
    (h : validStream rnd) :
    0 ≤ (mkOrnament t rnd).targetPos.y ∧ (mkOrnament t rnd).targetPos.y ≤ TREE_HEIGHT ∧
    lateralDist (mkOrnament t rnd).targetPos
      ≤ 1.05 * coneBound (mkOrnament t rnd).targetPos ∧
    (t ≠ OrnamentType.light →
      lateralDist (mkOrnament t rnd).targetPos ≤ coneBound (mkOrnament t rnd).targetPos) := by
  obtain ⟨h30, h31⟩ := h 3
  have hB : (0 : ℝ) ≤ (1 - rnd 3) * TREE_RADIUS := by
    unfold TREE_RADIUS
    nlinarith
  rcases t with _ | _ | _
  · have hc : (if OrnamentType.ball = OrnamentType.light then (1.05 : ℝ) else 0.9) = 0.9 :=
      if_neg (fun hh => OrnamentType.noConfusion hh)
    have hq : (0 : ℝ) ≤ (1 - rnd 3) * TREE_RADIUS * 0.9 := by nlinarith [hB]
    rw [mkOrnament_targetPos, hc, lateralDist_polar _ _ _ hq, coneBound_at]
    refine ⟨?_, ?_, by nlinarith [hB], fun _ => by nlinarith [hB]⟩
    · show 0 ≤ rnd 3 * TREE_HEIGHT
      unfold TREE_HEIGHT
      nlinarith
    · show rnd 3 * TREE_HEIGHT ≤ TREE_HEIGHT
      unfold TREE_HEIGHT
      nlinarith
  · have hc : (if OrnamentType.box = OrnamentType.light then (1.05 : ℝ) else 0.9) = 0.9 :=
      if_neg (fun hh => OrnamentType.noConfusion hh)
    have hq : (0 : ℝ) ≤ (1 - rnd 3) * TREE_RADIUS * 0.9 := by nlinarith [hB]
    rw [mkOrnament_targetPos, hc, lateralDist_polar _ _ _ hq, coneBound_at]
    refine ⟨?_, ?_, by nlinarith [hB], fun _ => by nlinarith [hB]⟩
    · show 0 ≤ rnd 3 * TREE_HEIGHT
      unfold TREE_HEIGHT
      nlinarith
    · show rnd 3 * TREE_HEIGHT ≤ TREE_HEIGHT
      unfold TREE_HEIGHT
      nlinarith
  · have hc : (if OrnamentType.light = OrnamentType.light then (1.05 : ℝ) else 0.9) = 1.05 :=
      if_pos rfl
    have hq : (0 : ℝ) ≤ (1 - rnd 3) * TREE_RADIUS * 1.05 := by nlinarith [hB]
    rw [mkOrnament_targetPos, hc, lateralDist_polar _ _ _ hq, coneBound_at]
    refine ⟨?_, ?_, by nlinarith [hB], fun hne => absurd rfl hne⟩
    · show 0 ≤ rnd 3 * TREE_HEIGHT
      unfold TREE_HEIGHT
      nlinarith
    · show rnd 3 * TREE_HEIGHT ≤ TREE_HEIGHT
      unfold TREE_HEIGHT
      nlinarith

/-- Cone bounds for one generated foliage record: the height lies in
`[0, TreeHeight]` and the lateral distance stays within the cone radius. -/
theorem mkFoliage_target_bounds (rnd : RandStream) (h : validStream rnd) :
    0 ≤ (mkFoliage rnd).targetPos.y ∧ (mkFoliage rnd).targetPos.y ≤ TREE_HEIGHT ∧
    lateralDist (mkFoliage rnd).targetPos ≤ coneBound (mkFoliage rnd).targetPos := by
  obtain ⟨h30, h31⟩ := h 3
  obtain ⟨h50, h51⟩ := h 5
  have hB : (0 : ℝ) ≤ (1 - rnd 3) * TREE_RADIUS := by
    unfold TREE_RADIUS
    nlinarith
  have hs0 : (0 : ℝ) ≤ Real.sqrt (rnd 5) := Real.sqrt_nonneg _
  have hs1 : Real.sqrt (rnd 5) ≤ 1 := Real.sqrt_le_one.mpr (le_of_lt h51)
  have hq : (0 : ℝ) ≤ Real.sqrt (rnd 5) * ((1 - rnd 3) * TREE_RADIUS) := mul_nonneg hs0 hB
  rw [mkFoliage_targetPos, lateralDist_polar _ _ _ hq, coneBound_at]
  refine ⟨?_, ?_, ?_⟩
  · show 0 ≤ rnd 3 * TREE_HEIGHT
    unfold TREE_HEIGHT
    nlinarith
  · show rnd 3 * TREE_HEIGHT ≤ TREE_HEIGHT
    unfold TREE_HEIGHT
    nlinarith
  · nlinarith

/-- C3 counterexample: a generated light record whose target position lies
strictly outside the cone bound — lights are placed at `1.05` times the
cone radius, so at height fraction `0` the lateral distance is `6.3` while
the bound is `6`. -/
theorem target_cone_counterexample :
    mkOrnament OrnamentType.light zeroStream
      ∈ generateOrnamentData 1 OrnamentType.light zeroStream ∧
    coneBound (mkOrnament OrnamentType.light zeroStream).targetPos
      < lateralDist (mkOrnament OrnamentType.light zeroStream).targetPos := by
  constructor
  · simp [generateOrnamentData]
  · rw [mkOrnament_targetPos,
        lateralDist_polar _ _ _ (by norm_num [zeroStream, TREE_RADIUS]), coneBound_at]
    norm_num [zeroStream, TREE_RADIUS]

/-- C3 amended: every generated record of every class keeps its target
height inside `[0, TreeHeight]`; balls, boxes and foliage keep lateral
distance within `(1 - y/TreeHeight) * TreeRadius`, while lights may exceed
that bound by the factor `1.05` (and no more). -/
theorem target_cone_bounds :
    ∀ (n : ℕ) (t : OrnamentType) (rnd : RandStream), validStream rnd →
      (∀ d ∈ generateOrnamentData n t rnd,
        0 ≤ d.targetPos.y ∧ d.targetPos.y ≤ TREE_HEIGHT ∧
        lateralDist d.targetPos ≤ 1.05 * coneBound d.targetPos ∧
        (t ≠ OrnamentType.light → lateralDist d.targetPos ≤ coneBound d.targetPos)) ∧
      (∀ d ∈ generateFoliage n rnd,
        0 ≤ d.targetPos.y ∧ d.targetPos.y ≤ TREE_HEIGHT ∧
        lateralDist d.targetPos ≤ coneBound d.targetPos) := by
  intro n t rnd h
  constructor
  · intro d hd
    obtain ⟨r2, hr2, rfl⟩ := mem_generateOrnamentData h hd
    exact mkOrnament_target_bounds t r2 hr2
  · intro d hd
    obtain ⟨r2, hr2, rfl⟩ := mem_generateFoliage h hd
    exact mkFoliage_target_bounds r2 hr2

/-- Witness for the amended C3 at a concrete generated record: the ball
drawn from the all-zero stream obeys the height and cone bounds. -/
theorem target_cone_bounds_witness :
    0 ≤ (mkOrnament OrnamentType.ball zeroStream).targetPos.y ∧
    (mkOrnament OrnamentType.ball zeroStream).targetPos.y ≤ TREE_HEIGHT ∧
    lateralDist (mkOrnament OrnamentType.ball zeroStream).targetPos
      ≤ coneBound (mkOrnament OrnamentType.ball zeroStream).targetPos := by
  have h := (target_cone_bounds 1 OrnamentType.ball zeroStream zeroStream_valid).1
    (mkOrnament OrnamentType.ball zeroStream) (by simp [generateOrnamentData])
  exact ⟨h.1, h.2.1, h.2.2.2 (fun hh => OrnamentType.noConfusion hh)⟩

/-- Chaos-distance band for one generated ornament record. -/
theorem mkOrnament_chaos_band (t : OrnamentType) (rnd : RandStream)
    (h : validStream rnd) :
    20 ≤ chaosRadius (mkOrnament t rnd).chaosPos ∧
    chaosRadius (mkOrnament t rnd).chaosPos ≤ 35 := by
  obtain ⟨h20, h21⟩ := h 2
  have hr : (0 : ℝ) ≤ 20 + rnd 2 * 15 := by nlinarith
  rw [mkOrnament_chaosPos, chaosRadius_sample _ _ _ hr]
  constructor <;> nlinarith

/-- Chaos-distance bound for one generated foliage record. -/
theorem mkFoliage_chaos_band (rnd : RandStream) (h : validStream rnd) :
    0 ≤ chaosRadius (mkFoliage rnd).chaosPos ∧
    chaosRadius (mkFoliage rnd).chaosPos ≤ 25 := by
  obtain ⟨h20, h21⟩ := h 2
  have hge : (0 : ℝ) ≤ rnd 2 ^ ((1 : ℝ) / 3) := Real.rpow_nonneg h20 _
  have hle : rnd 2 ^ ((1 : ℝ) / 3) ≤ 1 :=
    Real.rpow_le_one h20 (le_of_lt h21) (by norm_num)
  have hr : (0 : ℝ) ≤ 25 * rnd 2 ^ ((1 : ℝ) / 3) := by nlinarith
  rw [mkFoliage_chaosPos, chaosRadius_sample _ _ _ hr]
  constructor <;> nlinarith

/-- C4 counterexample: the foliage chaos radius `25 * cbrt(random)` is not
bounded away from zero — the generated record from the all-zero stream sits
at distance exactly `0` from the chaos cloud center, so no positive lower
band exists for the foliage class. -/
theorem chaos_band_counterexample :
    mkFoliage zeroStream ∈ generateFoliage 1 zeroStream ∧
    chaosRadius (mkFoliage zeroStream).chaosPos = 0 := by
  constructor
  · simp [generateFoliage]
  · have hz : zeroStream 2 = (0 : ℝ) := rfl
    have h : (25 : ℝ) * zeroStream 2 ^ ((1 : ℝ) / 3) = 0 := by
      rw [hz, Real.zero_rpow (by norm_num)]
      ring
    rw [mkFoliage_chaosPos, chaosRadius_sample _ _ _ (le_of_eq h.symm)]
    exact h

/-- C4 amended: every chaos sample is a spherical inverse-CDF direction
scaled by a radius and lifted by `10`: for ornaments the distance from the
lifted center lies in the outer band `[20, 35]` (bounded away from zero);
for foliage it lies in the full ball `[0, 25]`, which is not bounded away
from zero. -/
theorem chaos_radius_band :
    ∀ (n : ℕ) (t : OrnamentType) (rnd : RandStream), validStream rnd →
      (∀ d ∈ generateOrnamentData n t rnd,
        20 ≤ chaosRadius d.chaosPos ∧ chaosRadius d.chaosPos ≤ 35) ∧
      (∀ d ∈ generateFoliage n rnd,
        0 ≤ chaosRadius d.chaosPos ∧ chaosRadius d.chaosPos ≤ 25) := by
  intro n t rnd h
  constructor
  · intro d hd
    obtain ⟨r2, hr2, rfl⟩ := mem_generateOrnamentData h hd
    exact mkOrnament_chaos_band t r2 hr2
  · intro d hd
    obtain ⟨r2, hr2, rfl⟩ := mem_generateFoliage h hd
    exact mkFoliage_chaos_band r2 hr2

/-- Witness for the amended C4 at a concrete generated record: the box
drawn from the all-zero stream sits in the outer chaos band. -/
theorem chaos_radius_band_witness :
    20 ≤ chaosRadius (mkOrnament OrnamentType.box zeroStream).chaosPos ∧
    chaosRadius (mkOrnament OrnamentType.box zeroStream).chaosPos ≤ 35 :=
  (chaos_radius_band 1 OrnamentType.box zeroStream zeroStream_valid).1
    (mkOrnament OrnamentType.box zeroStream) (by simp [generateOrnamentData])
